import Mathlib

/-
Shallow embedding of src/ioc-satt-dev/db/system.py (SystemGroup).

The PV group state is a record of the PV values.  External collaborators
(the per-filter models reached through parent.filters, the aggregate
transmission calculators on parent, and calculator.get_best_config) are
modelled as an environment of fallible oracles: each may return a value or
raise (Except.error), exactly as the awaited calls in run_calculation may.
Every observable action of a pass (PV write, oracle call, log record) is
recorded in an event trace.
-/

namespace SolidAttenuator

/-- Result of calculator.get_best_config: a filter-state vector and its
transmission, as used by SystemGroup.run_calculation. -/
structure Config where
  filter_states : List Nat
  transmission : ℚ
  deriving DecidableEq

/-- The PV values of SystemGroup (src/ioc-satt-dev/db/system.py).
Enum PVs keep their string values, matching the string dispatch in the
source; `run` holds the Run PV's committed value. -/
structure SystemState where
  calculated_transmission : ℚ
  calculated_transmission_3omega : ℚ
  calculated_transmission_error : ℚ
  running : Bool
  mirror_in : Bool
  calc_mode : String
  energy_source : String
  best_config : List Nat
  active_config : List Nat
  energy_actual : ℚ
  energy_custom : ℚ
  energy_calc : ℚ
  desired_transmission : ℚ
  run : String
  deriving DecidableEq

/-- Observable actions of the system: PV writes, oracle calls and log
records, in the order they happen. -/
inductive Event where
  | resolveEnergy (eV : ℚ)
  | writeEnergyCalc (eV : ℚ)
  | setFilterEnergy (index : Nat) (eV : ℚ)
  | writeTransmission (t : ℚ)
  | writeTransmission3Omega (t : ℚ)
  | searchConfig (tDes : ℚ) (mode : String)
  | writeBestConfig (states : List Nat)
  | writeError (delta : ℚ)
  | logInfo (eV : ℚ) (mode : String) (tDes : ℚ) (achieved : ℚ) (delta : ℚ)
      (states : List Nat)
  | logException
  | logConnection (pv : String) (data : String)
  | logDebugEnergy (eV : ℚ)
  | logEnergyChanged (eV : ℚ)
  | writeEnergyActual (eV : ℚ)
  deriving DecidableEq

/-- The external collaborators of SystemGroup, as fallible oracles:
parent.filters (keyed by index), filter.set_photon_energy,
parent.calculate_transmission, parent.calculate_transmission_3omega and
calculator.get_best_config (whose all_transmissions argument is internal
to the environment). -/
structure Env where
  filters : List Nat
  set_photon_energy : Nat → ℚ → Except String Unit
  calculate_transmission : Except String ℚ
  calculate_transmission_3omega : Except String ℚ
  get_best_config : ℚ → String → Except String Config

/-- The message of the KeyError raised by the energy dictionary lookup
when the selector holds neither enum string. -/
def keyErrorMsg : String := "KeyError"

/-- The energy dictionary lookup at the top of run_calculation:
a dict {Actual: energy_actual, Custom: energy_custom} indexed by
energy_source.value; any other key raises KeyError. -/
def lookupEnergy (s : SystemState) : Except String ℚ :=
  if s.energy_source = "Actual" then Except.ok s.energy_actual
  else if s.energy_source = "Custom" then Except.ok s.energy_custom
  else Except.error keyErrorMsg

/-- The loop `for filter in self.parent.filters.values():
await filter.set_photon_energy(energy)`: calls run in order, the first
raising call aborts the loop. -/
def setFilterEnergies (env : Env) (eV : ℚ) : List Nat → List Event × Option String
  | [] => ([], none)
  | i :: rest =>
    match env.set_photon_energy i eV with
    | Except.error msg => ([Event.setFilterEnergy i eV], some msg)
    | Except.ok _ =>
      let r := setFilterEnergies env eV rest
      (Event.setFilterEnergy i eV :: r.1, r.2)

/-- SystemGroup.run_calculation: returns the state after the pass (with
whatever writes happened before any exception), the event trace, and the
exception, if one was raised. -/
def run_calculation (env : Env) (s : SystemState) :
    SystemState × List Event × Option String :=
  match lookupEnergy s with
  | Except.error msg => (s, [], some msg)
  | Except.ok energy =>
    let s1 := { s with energy_calc := energy }
    let tr1 := [Event.resolveEnergy energy, Event.writeEnergyCalc energy]
    let fr := setFilterEnergies env energy env.filters
    match fr.2 with
    | some msg => (s1, tr1 ++ fr.1, some msg)
    | none =>
      match env.calculate_transmission with
      | Except.error msg => (s1, tr1 ++ fr.1, some msg)
      | Except.ok t =>
        let s2 := { s1 with calculated_transmission := t }
        let tr2 := tr1 ++ fr.1 ++ [Event.writeTransmission t]
        match env.calculate_transmission_3omega with
        | Except.error msg => (s2, tr2, some msg)
        | Except.ok t3 =>
          let s3 := { s2 with calculated_transmission_3omega := t3 }
          let tr3 := tr2 ++ [Event.writeTransmission3Omega t3]
          let tr4 := tr3 ++ [Event.searchConfig s3.desired_transmission s3.calc_mode]
          match env.get_best_config s3.desired_transmission s3.calc_mode with
          | Except.error msg => (s3, tr4, some msg)
          | Except.ok config =>
            let s4 := { s3 with best_config := config.filter_states }
            let delta := config.transmission - s4.desired_transmission
            let s5 := { s4 with calculated_transmission_error := delta }
            (s5,
             tr4 ++ [Event.writeBestConfig config.filter_states,
                     Event.writeError delta,
                     Event.logInfo energy s5.calc_mode s5.desired_transmission
                       config.transmission s5.calculated_transmission_error
                       config.filter_states],
             none)

/-- The Run PV putter (SystemGroup.run): a write of the string False
returns immediately; otherwise run_calculation is awaited inside
try/except Exception, a raised exception being logged.  After the putter
returns, the framework commits the written value to the PV. -/
def run_put (env : Env) (s : SystemState) (value : String) :
    SystemState × List Event :=
  if value = "False" then ({ s with run := value }, [])
  else
    let r := run_calculation env s
    match r.2.2 with
    | none => ({ r.1 with run := value }, r.2.1)
    | some _ => ({ r.1 with run := value }, r.2.1 ++ [Event.logException])

/-- One delivery of the monitored photon-energy PV: either a connection
notification or a data event carrying an energy value. -/
inductive FeedEvent where
  | connection (pv : String) (data : String)
  | data (eV : ℚ)
  deriving DecidableEq

/-- One iteration of the energy_actual startup loop: a connection event is
logged and skipped; a data event is logged at debug level and, when the
value differs from the PV, logged at info level and written to the PV. -/
def energy_actual_step (s : SystemState) (ev : FeedEvent) :
    SystemState × List Event :=
  match ev with
  | FeedEvent.connection pv data => (s, [Event.logConnection pv data])
  | FeedEvent.data eV =>
    if s.energy_actual ≠ eV then
      ({ s with energy_actual := eV },
       [Event.logDebugEnergy eV, Event.logEnergyChanged eV,
        Event.writeEnergyActual eV])
    else (s, [Event.logDebugEnergy eV])

/-- A per-pass log record: the success log at the end of run_calculation
or the exception log in the run putter. -/
def isPassLogRecord : Event → Bool
  | Event.logInfo _ _ _ _ _ _ => true
  | Event.logException => true
  | _ => false

/-- Number of per-pass log records in a trace. -/
def passLogCount (tr : List Event) : Nat :=
  tr.countP (fun e => isPassLogRecord e)

/-- Events belonging to a recalculation pass (as opposed to the energy
listener's own events). -/
def isCalcEvent : Event → Bool
  | Event.resolveEnergy _ => true
  | Event.writeEnergyCalc _ => true
  | Event.setFilterEnergy _ _ => true
  | Event.writeTransmission _ => true
  | Event.writeTransmission3Omega _ => true
  | Event.searchConfig _ _ => true
  | Event.writeBestConfig _ => true
  | Event.writeError _ => true
  | Event.logInfo _ _ _ _ _ _ => true
  | Event.logException => true
  | _ => false

/-- Number of resolveEnergy events in a trace. -/
def resolveCount (tr : List Event) : Nat :=
  tr.countP (fun e => match e with
    | Event.resolveEnergy _ => true
    | _ => false)

/-- The triggering enum string of the Run PV. -/
def strTrue : String := "True"

/-- The non-triggering enum string of the Run PV. -/
def strFalse : String := "False"

/-- A concrete environment in which every external call succeeds: two
filters, aggregate transmission 2, third-harmonic transmission 3, and a
best configuration [1, 0] with transmission 5 (the numeric values are
arbitrary distinct test points of the oracles). -/
def envOK : Env where
  filters := [0, 1]
  set_photon_energy := fun _ _ => Except.ok ()
  calculate_transmission := Except.ok 2
  calculate_transmission_3omega := Except.ok 3
  get_best_config := fun _ _ =>
    Except.ok { filter_states := [1, 0], transmission := 5 }

/-- The message of the failing configuration search in envSearchFail. -/
def noConfigMsg : String := "no best configuration"

/-- A concrete environment identical to envOK except that the
configuration search raises. -/
def envSearchFail : Env where
  filters := [0, 1]
  set_photon_energy := fun _ _ => Except.ok ()
  calculate_transmission := Except.ok 2
  calculate_transmission_3omega := Except.ok 3
  get_best_config := fun _ _ => Except.error noConfigMsg

/-- A concrete pre-pass state: selector on Actual, actual energy 9000 eV,
custom energy 12000 eV, Floor mode (the published outputs hold arbitrary
distinct test values). -/
def s0 : SystemState where
  calculated_transmission := 7
  calculated_transmission_3omega := 7
  calculated_transmission_error := 7
  running := false
  mirror_in := false
  calc_mode := "Floor"
  energy_source := "Actual"
  best_config := [0, 0]
  active_config := [0, 0]
  energy_actual := 9000
  energy_custom := 12000
  energy_calc := 0
  desired_transmission := 3
  run := "False"

/-- s0 with the running flag raised, representing a pass in flight. -/
def sRunning : SystemState := { s0 with running := true }

/-- s0 with the Run PV already holding the triggering value. -/
def sRunTrue : SystemState := { s0 with run := "True" }

/-- s0 with the energy-source selector on Custom. -/
def s0Custom : SystemState := { s0 with energy_source := "Custom" }

/-- When every filter call succeeds, the filter loop emits one
setFilterEnergy event per filter, in order, and raises nothing. -/
theorem setFilterEnergies_ok (env : Env) (eV : ℚ) (l : List Nat)
    (h : ∀ i ∈ l, env.set_photon_energy i eV = Except.ok ()) :
    setFilterEnergies env eV l =
      (l.map (fun i => Event.setFilterEnergy i eV), none) := by
  induction l with
  | nil => rfl
  | cons i rest ih =>
    have hi := h i (List.mem_cons_self i rest)
    have hrest := ih (fun j hj => h j (List.mem_cons_of_mem i hj))
    simp [setFilterEnergies, hi, hrest]

/-- Full evaluation of run_calculation when every step succeeds. -/
theorem run_calculation_success (env : Env) (s : SystemState)
    (energy t t3 : ℚ) (config : Config)
    (hE : lookupEnergy s = Except.ok energy)
    (hF : ∀ i ∈ env.filters, env.set_photon_energy i energy = Except.ok ())
    (hT : env.calculate_transmission = Except.ok t)
    (hT3 : env.calculate_transmission_3omega = Except.ok t3)
    (hC : env.get_best_config s.desired_transmission s.calc_mode =
      Except.ok config) :
    run_calculation env s =
      ({ s with energy_calc := energy,
                calculated_transmission := t,
                calculated_transmission_3omega := t3,
                best_config := config.filter_states,
                calculated_transmission_error :=
                  config.transmission - s.desired_transmission },
       [Event.resolveEnergy energy, Event.writeEnergyCalc energy]
         ++ env.filters.map (fun i => Event.setFilterEnergy i energy)
         ++ [Event.writeTransmission t,
             Event.writeTransmission3Omega t3,
             Event.searchConfig s.desired_transmission s.calc_mode,
             Event.writeBestConfig config.filter_states,
             Event.writeError (config.transmission - s.desired_transmission),
             Event.logInfo energy s.calc_mode s.desired_transmission
               config.transmission
               (config.transmission - s.desired_transmission)
               config.filter_states],
       none) := by
  simp [run_calculation, hE, setFilterEnergies_ok env energy env.filters hF,
    hT, hT3, hC]

/-- Either a pass succeeds, or the best configuration and the
transmission error keep their pre-pass values: both are only written
after the configuration search, the last fallible step. -/
theorem run_calculation_cases (env : Env) (s : SystemState) :
    (run_calculation env s).2.2 = none ∨
    ((run_calculation env s).1.best_config = s.best_config ∧
     (run_calculation env s).1.calculated_transmission_error =
       s.calculated_transmission_error) := by
  unfold run_calculation
  split
  · exact Or.inr ⟨rfl, rfl⟩
  · dsimp only
    split
    · exact Or.inr ⟨rfl, rfl⟩
    · split
      · exact Or.inr ⟨rfl, rfl⟩
      · split
        · exact Or.inr ⟨rfl, rfl⟩
        · split
          · exact Or.inr ⟨rfl, rfl⟩
          · exact Or.inl rfl

/-- run_calculation never writes the running flag. -/
theorem run_calculation_running (env : Env) (s : SystemState) :
    (run_calculation env s).1.running = s.running := by
  unfold run_calculation
  split
  · rfl
  · dsimp only
    split
    · rfl
    · split
      · rfl
      · split
        · rfl
        · split
          · rfl
          · rfl

/-- As soon as the energy lookup succeeds, the resolved energy is written
to the last-energy-used PV, on success and on every later failure. -/
theorem run_calculation_energy_calc (env : Env) (s : SystemState)
    (energy : ℚ) (hE : lookupEnergy s = Except.ok energy) :
    (run_calculation env s).1.energy_calc = energy := by
  unfold run_calculation
  rw [hE]
  dsimp only
  split
  · rfl
  · split
    · rfl
    · split
      · rfl
      · split
        · rfl
        · rfl

/-- run_calculation never reads the running flag: flipping it changes
nothing but the flag itself in the result. -/
theorem run_calculation_ignores_running (env : Env) (s : SystemState)
    (b : Bool) :
    run_calculation env { s with running := b } =
      ({ (run_calculation env s).1 with running := b },
       (run_calculation env s).2) := by
  have hE : lookupEnergy { s with running := b } = lookupEnergy s := rfl
  unfold run_calculation
  rw [hE]
  split
  · rfl
  · dsimp only
    split
    · rfl
    · split
      · rfl
      · split
        · rfl
        · split
          · rfl
          · rfl

/-- Counting pass log records distributes over trace concatenation. -/
theorem passLogCount_append (l1 l2 : List Event) :
    passLogCount (l1 ++ l2) = passLogCount l1 + passLogCount l2 := by
  simp [passLogCount, List.countP_append]

/-- The filter loop emits no pass log record. -/
theorem passLogCount_setFilterEnergies (env : Env) (eV : ℚ) (l : List Nat) :
    passLogCount (setFilterEnergies env eV l).1 = 0 := by
  induction l with
  | nil => rfl
  | cons i rest ih =>
    dsimp only [setFilterEnergies]
    split
    · simp [passLogCount, List.countP_cons, isPassLogRecord]
    · simpa [passLogCount, List.countP_cons, isPassLogRecord] using ih

/-- A pass emits exactly one pass log record when it succeeds (the final
info log) and none when it raises. -/
theorem passLogCount_run_calculation (env : Env) (s : SystemState) :
    passLogCount (run_calculation env s).2.1 =
      (if (run_calculation env s).2.2 = none then 1 else 0) := by
  unfold run_calculation
  split
  · rfl
  · dsimp only
    split
    · simp only [passLogCount_append, passLogCount_setFilterEnergies]
      rfl
    · split
      · simp only [passLogCount_append, passLogCount_setFilterEnergies]
        rfl
      · split
        · simp only [passLogCount_append, passLogCount_setFilterEnergies]
          rfl
        · split
          · simp only [passLogCount_append, passLogCount_setFilterEnergies]
            rfl
          · simp only [passLogCount_append, passLogCount_setFilterEnergies]
            rfl

/-- Every write of the triggering value to the Run PV produces exactly
one pass log record: the info log of a successful pass or the exception
log of a failed one. -/
theorem passLogCount_run_put_true (env : Env) (s : SystemState) :
    passLogCount (run_put env s strTrue).2 = 1 := by
  have h := passLogCount_run_calculation env s
  unfold run_put
  rw [if_neg (by decide : ¬strTrue = "False")]
  dsimp only
  split
  · rename_i heq
    rw [heq] at h
    simpa using h
  · rename_i msg heq
    rw [heq] at h
    simp at h
    rw [passLogCount_append, h]
    rfl

/-- The trace of a Run PV write does not depend on the running flag. -/
theorem run_put_trace_ignores_running (env : Env) (s : SystemState)
    (b : Bool) (v : String) :
    (run_put env { s with running := b } v).2 = (run_put env s v).2 := by
  unfold run_put
  split
  · rfl
  · rw [run_calculation_ignores_running]
    dsimp only
    split <;> rfl

/-- Counting resolveEnergy events distributes over concatenation. -/
theorem resolveCount_append (l1 l2 : List Event) :
    resolveCount (l1 ++ l2) = resolveCount l1 + resolveCount l2 := by
  simp [resolveCount, List.countP_append]

/-- The filter-loop events contain no resolveEnergy event. -/
theorem resolveCount_setFilter_map (eV : ℚ) (l : List Nat) :
    resolveCount (l.map (fun i => Event.setFilterEnergy i eV)) = 0 := by
  induction l with
  | nil => rfl
  | cons i rest ih =>
    simp [resolveCount, List.countP_cons]

/-- C1 counterexample: a pass in which the configuration search raises
still changes the published last-energy-used and aggregate-transmission
outputs, so a failing pass does not leave all published outputs at their
pre-pass values. -/
theorem all_or_nothing_publish_counterexample :
    ((run_calculation envSearchFail s0).2.2).isSome = true ∧
    (run_calculation envSearchFail s0).1.energy_calc ≠ s0.energy_calc ∧
    (run_calculation envSearchFail s0).1.calculated_transmission ≠
      s0.calculated_transmission := by
  refine ⟨rfl, ?_, ?_⟩ <;> decide

/-- C1 amended: on a failing pass the best configuration and the
transmission error keep their pre-pass values (both are written only
after the configuration search, the last step that can raise), while
outputs written before the failing step (last-energy-used and the
aggregate transmissions) may already have been updated. -/
theorem failed_pass_preserves_config_and_error (env : Env) (s : SystemState)
    (h : ((run_calculation env s).2.2).isSome = true) :
    (run_calculation env s).1.best_config = s.best_config ∧
    (run_calculation env s).1.calculated_transmission_error =
      s.calculated_transmission_error := by
  rcases run_calculation_cases env s with hnone | hframe
  · rw [hnone] at h
    simp at h
  · exact hframe

/-- Witness for the amended C1 theorem at a concrete failing pass. -/
theorem failed_pass_preserves_config_and_error_witness :
    ((run_calculation envSearchFail s0).2.2).isSome = true ∧
    (run_calculation envSearchFail s0).1.best_config = s0.best_config ∧
    (run_calculation envSearchFail s0).1.calculated_transmission_error =
      s0.calculated_transmission_error := by
  have h : ((run_calculation envSearchFail s0).2.2).isSome = true := rfl
  exact ⟨h, failed_pass_preserves_config_and_error envSearchFail s0 h⟩

/-- C2 counterexample: with the running flag set, a trigger is not
dropped — the pass executes, changing the published best configuration
and emitting a pass log record — and a second overlapping trigger
produces a second log record, so two overlapping triggers yield two log
records rather than one. -/
theorem single_flight_counterexample :
    sRunning.running = true ∧
    (run_put envOK sRunning strTrue).1.best_config ≠
      sRunning.best_config ∧
    passLogCount (run_put envOK sRunning strTrue).2 +
      passLogCount
        (run_put envOK (run_put envOK sRunning strTrue).1 strTrue).2 = 2 := by
  refine ⟨rfl, ?_, ?_⟩ <;> decide

/-- C2 amended: the run handler never consults the running flag (which no
code in the group ever sets), so a trigger arriving while the flag is set
is processed exactly as when idle: its trace is identical to the
idle-state trace and it performs a full pass emitting one pass log
record; overlapping triggers therefore each produce a log record instead
of being dropped. -/
theorem trigger_while_running_not_dropped (env : Env) (s : SystemState)
    (_h : s.running = true) :
    passLogCount (run_put env s strTrue).2 = 1 ∧
    (run_put env s strTrue).2 =
      (run_put env { s with running := false } strTrue).2 := by
  exact ⟨passLogCount_run_put_true env s,
    (run_put_trace_ignores_running env s false strTrue).symm⟩

/-- Witness for the amended C2 theorem at a concrete state with the
running flag set. -/
theorem trigger_while_running_not_dropped_witness :
    sRunning.running = true ∧
    passLogCount (run_put envOK sRunning strTrue).2 = 1 ∧
    (run_put envOK sRunning strTrue).2 =
      (run_put envOK { sRunning with running := false } strTrue).2 :=
  ⟨rfl, trigger_while_running_not_dropped envOK sRunning rfl⟩

/-- C3 counterexample: a write of True while the Run PV already holds
True is not a transition into the triggering value, yet it starts a full
recalculation pass: the best configuration changes and a pass log record
is emitted. -/
theorem edge_trigger_counterexample :
    sRunTrue.run = "True" ∧
    (run_put envOK sRunTrue strTrue).1.best_config ≠
      sRunTrue.best_config ∧
    passLogCount (run_put envOK sRunTrue strTrue).2 = 1 := by
  refine ⟨rfl, ?_, ?_⟩ <;> decide

/-- C3 amended: a write of False to the Run PV is a no-op apart from
committing the PV value itself (no pass starts, no event is emitted, no
other field changes), while every write of True starts a recalculation
pass emitting one pass log record, regardless of the value the PV held
before: the trigger is write-level, not edge-triggered. -/
theorem run_false_noop_true_write_triggers (env : Env) (s : SystemState) :
    run_put env s strFalse = ({ s with run := strFalse }, []) ∧
    passLogCount (run_put env s strTrue).2 = 1 :=
  ⟨rfl, passLogCount_run_put_true env s⟩

/-- C4: on a successful pass the event trace is exactly: resolve the
energy per the selector, record it as last-energy-used, set the photon
energy on every filter, write the aggregate transmission, write the
third-harmonic transmission, run the configuration search, publish the
best configuration, publish the error, and log the outcome, in that
order. -/
theorem pass_step_order (env : Env) (s : SystemState)
    (energy t t3 : ℚ) (config : Config)
    (hE : lookupEnergy s = Except.ok energy)
    (hF : ∀ i ∈ env.filters, env.set_photon_energy i energy = Except.ok ())
    (hT : env.calculate_transmission = Except.ok t)
    (hT3 : env.calculate_transmission_3omega = Except.ok t3)
    (hC : env.get_best_config s.desired_transmission s.calc_mode =
      Except.ok config) :
    (run_calculation env s).2.1 =
      [Event.resolveEnergy energy, Event.writeEnergyCalc energy]
        ++ env.filters.map (fun i => Event.setFilterEnergy i energy)
        ++ [Event.writeTransmission t,
            Event.writeTransmission3Omega t3,
            Event.searchConfig s.desired_transmission s.calc_mode,
            Event.writeBestConfig config.filter_states,
            Event.writeError (config.transmission - s.desired_transmission),
            Event.logInfo energy s.calc_mode s.desired_transmission
              config.transmission
              (config.transmission - s.desired_transmission)
              config.filter_states] := by
  rw [run_calculation_success env s energy t t3 config hE hF hT hT3 hC]

/-- Witness for the C4 step-order theorem at a concrete successful
pass. -/
theorem pass_step_order_witness :
    lookupEnergy s0 = Except.ok 9000 ∧
    (∀ i ∈ envOK.filters, envOK.set_photon_energy i 9000 = Except.ok ()) ∧
    envOK.calculate_transmission = Except.ok 2 ∧
    envOK.calculate_transmission_3omega = Except.ok 3 ∧
    envOK.get_best_config s0.desired_transmission s0.calc_mode =
      Except.ok { filter_states := [1, 0], transmission := 5 } ∧
    (run_calculation envOK s0).2.1 =
      [Event.resolveEnergy 9000, Event.writeEnergyCalc 9000]
        ++ envOK.filters.map (fun i => Event.setFilterEnergy i 9000)
        ++ [Event.writeTransmission 2,
            Event.writeTransmission3Omega 3,
            Event.searchConfig s0.desired_transmission s0.calc_mode,
            Event.writeBestConfig [1, 0],
            Event.writeError ((5 : ℚ) - s0.desired_transmission),
            Event.logInfo 9000 s0.calc_mode s0.desired_transmission 5
              ((5 : ℚ) - s0.desired_transmission) [1, 0]] :=
  ⟨rfl, fun _ _ => rfl, rfl, rfl, rfl,
   pass_step_order envOK s0 9000 2 3
     { filter_states := [1, 0], transmission := 5 }
     rfl (fun _ _ => rfl) rfl rfl rfl⟩

/-- C5: the pass resolves its energy per the energy-source selector:
with the selector on Actual it uses (and records as last-energy-used)
the externally fed actual photon energy, with the selector on Custom the
externally configured custom energy. -/
theorem energy_source_resolution (env : Env) (s : SystemState) :
    (s.energy_source = "Actual" →
      lookupEnergy s = Except.ok s.energy_actual ∧
      (run_calculation env s).1.energy_calc = s.energy_actual) ∧
    (s.energy_source = "Custom" →
      lookupEnergy s = Except.ok s.energy_custom ∧
      (run_calculation env s).1.energy_calc = s.energy_custom) := by
  constructor
  · intro h
    have hE : lookupEnergy s = Except.ok s.energy_actual := by
      unfold lookupEnergy
      rw [h]
      simp
    exact ⟨hE, run_calculation_energy_calc env s _ hE⟩
  · intro h
    have hE : lookupEnergy s = Except.ok s.energy_custom := by
      unfold lookupEnergy
      rw [h]
      simp
    exact ⟨hE, run_calculation_energy_calc env s _ hE⟩

/-- Witness for the C5 energy-resolution theorem on both selector
values. -/
theorem energy_source_resolution_witness :
    s0.energy_source = "Actual" ∧
    (run_calculation envOK s0).1.energy_calc = s0.energy_actual ∧
    s0Custom.energy_source = "Custom" ∧
    (run_calculation envOK s0Custom).1.energy_calc = s0Custom.energy_custom :=
  ⟨rfl, ((energy_source_resolution envOK s0).1 rfl).2, rfl,
   ((energy_source_resolution envOK s0Custom).2 rfl).2⟩

/-- C6: on a successful pass the published transmission error equals the
selected best configuration's transmission minus the desired
transmission read during the pass, and the published best configuration
is that configuration's filter-state vector. -/
theorem error_is_transmission_minus_desired (env : Env) (s : SystemState)
    (energy t t3 : ℚ) (config : Config)
    (hE : lookupEnergy s = Except.ok energy)
    (hF : ∀ i ∈ env.filters, env.set_photon_energy i energy = Except.ok ())
    (hT : env.calculate_transmission = Except.ok t)
    (hT3 : env.calculate_transmission_3omega = Except.ok t3)
    (hC : env.get_best_config s.desired_transmission s.calc_mode =
      Except.ok config) :
    (run_calculation env s).2.2 = none ∧
    (run_calculation env s).1.calculated_transmission_error =
      config.transmission - s.desired_transmission ∧
    (run_calculation env s).1.best_config = config.filter_states := by
  rw [run_calculation_success env s energy t t3 config hE hF hT hT3 hC]
  exact ⟨rfl, rfl, rfl⟩

/-- Witness for the C6 error theorem at a concrete successful pass. -/
theorem error_is_transmission_minus_desired_witness :
    lookupEnergy s0 = Except.ok 9000 ∧
    envOK.get_best_config s0.desired_transmission s0.calc_mode =
      Except.ok { filter_states := [1, 0], transmission := 5 } ∧
    (run_calculation envOK s0).2.2 = none ∧
    (run_calculation envOK s0).1.calculated_transmission_error =
      (5 : ℚ) - s0.desired_transmission ∧
    (run_calculation envOK s0).1.best_config = [1, 0] :=
  ⟨rfl, rfl,
   error_is_transmission_minus_desired envOK s0 9000 2 3
     { filter_states := [1, 0], transmission := 5 }
     rfl (fun _ _ => rfl) rfl rfl rfl⟩

/-- C7: an exception raised inside the recalculation pass is caught by
the run putter and turned into a final exception log record, never
propagated to the trigger caller; the running flag is untouched (the
pipeline stays idle) and a subsequent trigger performs a fresh pass
emitting one pass log record. -/
theorem exception_caught_and_restartable (env env2 : Env) (s : SystemState)
    (msg : String) (h : (run_calculation env s).2.2 = some msg) :
    (run_put env s strTrue).2 =
      (run_calculation env s).2.1 ++ [Event.logException] ∧
    (run_put env s strTrue).1.running = s.running ∧
    passLogCount (run_put env2 (run_put env s strTrue).1 strTrue).2 = 1 := by
  have h1 : run_put env s strTrue =
      ({ (run_calculation env s).1 with run := strTrue },
       (run_calculation env s).2.1 ++ [Event.logException]) := by
    unfold run_put
    rw [if_neg (by decide : ¬strTrue = "False")]
    dsimp only
    rw [h]
  refine ⟨by rw [h1], ?_, passLogCount_run_put_true env2 _⟩
  rw [h1]
  exact run_calculation_running env s

/-- Witness for the C7 exception-handling theorem at a concrete failing
pass followed by a successful one. -/
theorem exception_caught_and_restartable_witness :
    (run_calculation envSearchFail s0).2.2 = some noConfigMsg ∧
    (run_put envSearchFail s0 strTrue).2 =
      (run_calculation envSearchFail s0).2.1 ++ [Event.logException] ∧
    (run_put envSearchFail s0 strTrue).1.running = s0.running ∧
    passLogCount
      (run_put envOK (run_put envSearchFail s0 strTrue).1 strTrue).2 = 1 := by
  have h : (run_calculation envSearchFail s0).2.2 = some noConfigMsg := rfl
  exact ⟨h, exception_caught_and_restartable envSearchFail envOK s0
    noConfigMsg h⟩

/-- C8: one step of the energy listener changes at most the
actual-photon-energy PV (all other fields keep their values), emits no
recalculation-pass event at all, and a connection notification is logged
only: the state is entirely unchanged and nothing else happens. -/
theorem listener_updates_only_energy (s : SystemState) (ev : FeedEvent) :
    (energy_actual_step s ev).1 =
      { s with energy_actual := (energy_actual_step s ev).1.energy_actual } ∧
    (energy_actual_step s ev).2.all (fun e => !(isCalcEvent e)) = true ∧
    (∀ pv d, energy_actual_step s (FeedEvent.connection pv d) =
      (s, [Event.logConnection pv d])) := by
  refine ⟨?_, ?_, fun pv d => rfl⟩
  · cases ev with
    | connection pv d => rfl
    | data eV =>
      unfold energy_actual_step
      dsimp only
      split
      · rfl
      · rfl
  · cases ev with
    | connection pv d => rfl
    | data eV =>
      unfold energy_actual_step
      dsimp only
      split
      · rfl
      · rfl

/-- C9: the listener writes the actual-photon-energy PV only when the
delivered value differs from the PV: an equal value produces only a
debug log record and leaves the state unchanged, while a differing value
is logged and written. -/
theorem listener_no_redundant_write (s : SystemState) (eV : ℚ) :
    (s.energy_actual = eV →
      energy_actual_step s (FeedEvent.data eV) =
        (s, [Event.logDebugEnergy eV])) ∧
    (s.energy_actual ≠ eV →
      energy_actual_step s (FeedEvent.data eV) =
        ({ s with energy_actual := eV },
         [Event.logDebugEnergy eV, Event.logEnergyChanged eV,
          Event.writeEnergyActual eV])) := by
  constructor
  · intro h
    unfold energy_actual_step
    dsimp only
    rw [if_neg (not_not_intro h)]
  · intro h
    unfold energy_actual_step
    dsimp only
    rw [if_pos h]

/-- Witness for the C9 theorem: an equal delivery leaves s0 unwritten, a
differing one updates it. -/
theorem listener_no_redundant_write_witness :
    s0.energy_actual = 9000 ∧
    energy_actual_step s0 (FeedEvent.data 9000) =
      (s0, [Event.logDebugEnergy 9000]) ∧
    s0.energy_actual ≠ 5000 ∧
    energy_actual_step s0 (FeedEvent.data 5000) =
      ({ s0 with energy_actual := 5000 },
       [Event.logDebugEnergy 5000, Event.logEnergyChanged 5000,
        Event.writeEnergyActual 5000]) := by
  have h1 : s0.energy_actual = 9000 := rfl
  have h2 : s0.energy_actual ≠ 5000 := by decide
  exact ⟨h1, (listener_no_redundant_write s0 9000).1 h1, h2,
    (listener_no_redundant_write s0 5000).2 h2⟩

/-- C10: on a successful pass the energy is resolved exactly once (one
resolveEnergy event in the trace), that snapshot is what is written to
the last-energy-used PV, every setFilterEnergy call in the trace carries
exactly that snapshot, and the outcome log records it too. -/
theorem single_energy_snapshot (env : Env) (s : SystemState)
    (energy t t3 : ℚ) (config : Config)
    (hE : lookupEnergy s = Except.ok energy)
    (hF : ∀ i ∈ env.filters, env.set_photon_energy i energy = Except.ok ())
    (hT : env.calculate_transmission = Except.ok t)
    (hT3 : env.calculate_transmission_3omega = Except.ok t3)
    (hC : env.get_best_config s.desired_transmission s.calc_mode =
      Except.ok config) :
    resolveCount (run_calculation env s).2.1 = 1 ∧
    (run_calculation env s).1.energy_calc = energy ∧
    Event.writeEnergyCalc energy ∈ (run_calculation env s).2.1 ∧
    (∀ i e, Event.setFilterEnergy i e ∈ (run_calculation env s).2.1 →
      e = energy) ∧
    Event.logInfo energy s.calc_mode s.desired_transmission
      config.transmission (config.transmission - s.desired_transmission)
      config.filter_states ∈ (run_calculation env s).2.1 := by
  rw [run_calculation_success env s energy t t3 config hE hF hT hT3 hC]
  refine ⟨?_, rfl, ?_, ?_, ?_⟩
  · simp only [resolveCount_append, resolveCount_setFilter_map]
    rfl
  · simp
  · intro i e hmem
    simp [List.mem_append, List.mem_map] at hmem
    rcases hmem with ⟨a, _, _, he⟩
    exact he.symm
  · simp

/-- Witness for the C10 snapshot theorem at a concrete successful
pass. -/
theorem single_energy_snapshot_witness :
    lookupEnergy s0 = Except.ok 9000 ∧
    resolveCount (run_calculation envOK s0).2.1 = 1 ∧
    (run_calculation envOK s0).1.energy_calc = 9000 ∧
    Event.writeEnergyCalc 9000 ∈ (run_calculation envOK s0).2.1 ∧
    Event.logInfo 9000 s0.calc_mode s0.desired_transmission 5
      ((5 : ℚ) - s0.desired_transmission) [1, 0] ∈
      (run_calculation envOK s0).2.1 := by
  have h := single_energy_snapshot envOK s0 9000 2 3
    { filter_states := [1, 0], transmission := 5 }
    rfl (fun _ _ => rfl) rfl rfl rfl
  exact ⟨rfl, h.1, h.2.1, h.2.2.1, h.2.2.2.2⟩

end SolidAttenuator
